import Mathlib

/-!
Shallow embedding of the DCAP quote verification engine of this repository
(file src/untrusted/quote_verify/src/lib.rs, struct Quote and enum Error).

Byte buffers are modelled as List Nat (each entry one byte).  Rust slice
indexing such as bytes[a..b] traps when the range is out of bounds, so the
slicing helpers return Option: none models the trap (panic).  Fallible
operations return the Res type below, whose panic constructor records that
the Rust code would have panicked rather than returned a Result.

The external cryptographic and parsing libraries used by the code (sha2,
p256, x509_parser) are not part of this repository; they are modelled as an
uninterpreted CryptoModel record of functions, so every theorem quantifies
over all possible behaviours of those libraries, and witnesses instantiate
them with concrete executable stand-ins.
-/

set_option maxRecDepth 40000

namespace SgxDcap

/-- Size of a quote header, constant QUOTE_HEADER_SIZE in the source. -/
def QUOTE_HEADER_SIZE : Nat := 48

/-- Size of an enclave report body, constant ENCLAVE_REPORT_SIZE. -/
def ENCLAVE_REPORT_SIZE : Nat := 384

/-- Size of the report data field, constant ENCLAVE_REPORT_DATA_SIZE. -/
def ENCLAVE_REPORT_DATA_SIZE : Nat := 64

/-- Size of a raw ECDSA signature, constant SIGNATURE_SIZE. -/
def SIGNATURE_SIZE : Nat := 64

/-- Size of a raw ECDSA key, constant KEY_SIZE. -/
def KEY_SIZE : Nat := 64

/-- Start of the ISV enclave report signature, constant
ISV_ENCLAVE_SIGNATURE_START = QUOTE_HEADER_SIZE + ENCLAVE_REPORT_SIZE + 4. -/
def ISV_ENCLAVE_SIGNATURE_START : Nat := QUOTE_HEADER_SIZE + ENCLAVE_REPORT_SIZE + 4

/-- Start of the attestation key, constant ATTESTATION_KEY_START. -/
def ATTESTATION_KEY_START : Nat := ISV_ENCLAVE_SIGNATURE_START + SIGNATURE_SIZE

/-- Start of the quoting enclave report, constant QUOTING_ENCLAVE_REPORT_START. -/
def QUOTING_ENCLAVE_REPORT_START : Nat := ATTESTATION_KEY_START + KEY_SIZE

/-- Start of the quoting enclave report signature, constant
QUOTING_ENCLAVE_SIGNATURE_START. -/
def QUOTING_ENCLAVE_SIGNATURE_START : Nat := QUOTING_ENCLAVE_REPORT_START + ENCLAVE_REPORT_SIZE

/-- Start of the report data inside the quoting enclave report, constant
QUOTING_ENCLAVE_REPORT_DATA_START. -/
def QUOTING_ENCLAVE_REPORT_DATA_START : Nat := QUOTING_ENCLAVE_REPORT_START + 320

/-- Size of the binding digest inside the quoting enclave report data,
constant QUOTING_ENCLAVE_REPORT_DATA_DIGEST_SIZE. -/
def QUOTING_ENCLAVE_REPORT_DATA_DIGEST_SIZE : Nat := 32

/-- Start of the 2-byte authentication data size field, constant
QUOTING_ENCLAVE_AUTHENTICATION_DATA_SIZE_START. -/
def QUOTING_ENCLAVE_AUTHENTICATION_DATA_SIZE_START : Nat :=
  QUOTING_ENCLAVE_SIGNATURE_START + SIGNATURE_SIZE

/-- Start of the authentication data, constant
QUOTING_ENCLAVE_AUTHENTICATION_DATA_START. -/
def QUOTING_ENCLAVE_AUTHENTICATION_DATA_START : Nat :=
  QUOTING_ENCLAVE_AUTHENTICATION_DATA_SIZE_START + 2

/-- Hardcoded byte offset 0x41C at which get_pck_pem starts the PEM parse
(the literal appears inline in the source of get_pck_pem). -/
def PCK_PEM_OFFSET : Nat := 0x41C

/-- Error enum of the source, with the same variants in the same order.
String payloads carry the diagnostic text of the underlying library error. -/
inductive Error where
  | Certificate : Error
  | PemParsing : String → Error
  | Signature : String → Error
  | Key : String → Error
  | AttestationKey : Error
deriving DecidableEq, Repr

/-- Result of running a fallible Rust function: ok and err model the two
sides of Result, and panic models an unrecoverable trap (out-of-bounds
slice index). -/
inductive Res (A : Type) where
  | ok : A → Res A
  | err : Error → Res A
  | panic : Res A
deriving DecidableEq, Repr

/-- Rust slice expression bytes[start..stop]: defined exactly when
start ≤ stop and stop ≤ length, otherwise the program traps (none). -/
def sliceRange (bytes : List Nat) (start stop : Nat) : Option (List Nat) :=
  if start ≤ stop ∧ stop ≤ bytes.length then
    some ((bytes.drop start).take (stop - start))
  else
    none

/-- Rust slice expression bytes[start..]: defined exactly when
start ≤ length, otherwise the program traps (none). -/
def sliceFrom (bytes : List Nat) (start : Nat) : Option (List Nat) :=
  if start ≤ bytes.length then some (bytes.drop start) else none

/-- Little-endian decoding of a 2-byte slice, modelling
u16::from_le_bytes on the two bytes of the size field. -/
def u16_le : List Nat → Nat
  | [a, b] => a + 256 * b
  | _ => 0

/-- Uninterpreted model of the external libraries used by the code:
sha2 (sha256), p256 (untagged point decode, raw signature decode, ECDSA
verify, SPKI decode) and x509_parser (PEM parse, X509 parse).  Each
fallible library call returns Except String, the String being the
diagnostic text that to_string would produce on the library error. -/
structure CryptoModel (PKey Sig Pem Cert : Type) where
  sha256 : List Nat → List Nat
  keyFromUntaggedBytes : List Nat → Except String PKey
  sigFromBytes : List Nat → Except String Sig
  ecdsaVerify : PKey → List Nat → Sig → Except String Unit
  parsePem : List Nat → Except String Pem
  parseX509 : Pem → Except String Cert
  spkiToKey : Cert → Except String PKey

/-- Sequencing of a slice access: if the slice traps the whole function
panics, otherwise the continuation runs on the slice. -/
def liftOption {A B : Type} : Option A → (A → Res B) → Res B
  | none, _ => Res.panic
  | some a, f => f a

/-- Sequencing of a fallible library call through the Rust question mark
operator: on error the From conversion wrap builds the Error variant and
the function returns it, otherwise the continuation runs. -/
def liftExcept {A B : Type} (wrap : String → Error) : Except String A → (A → Res B) → Res B
  | Except.error e, _ => Res.err (wrap e)
  | Except.ok a, f => f a

/-- Sequencing of a call that already returns a Res through the question
mark operator: errors and panics propagate unchanged. -/
def resBind {A B : Type} : Res A → (A → Res B) → Res B
  | Res.ok a, f => f a
  | Res.err e, _ => Res.err e
  | Res.panic, _ => Res.panic

/-- Trapping slice propagates as a panic. -/
@[simp]
lemma liftOption_none {A B : Type} (f : A → Res B) : liftOption none f = Res.panic := rfl

/-- Successful slice runs the continuation. -/
@[simp]
lemma liftOption_some {A B : Type} (a : A) (f : A → Res B) : liftOption (some a) f = f a := rfl

/-- Library error returns the wrapped Error variant. -/
@[simp]
lemma liftExcept_error {A B : Type} (wrap : String → Error) (e : String) (f : A → Res B) :
    liftExcept wrap (Except.error e) f = Res.err (wrap e) := rfl

/-- Library success runs the continuation. -/
@[simp]
lemma liftExcept_ok {A B : Type} (wrap : String → Error) (a : A) (f : A → Res B) :
    liftExcept wrap (Except.ok a) f = f a := rfl

/-- Successful inner call runs the continuation. -/
@[simp]
lemma resBind_ok {A B : Type} (a : A) (f : A → Res B) : resBind (Res.ok a) f = f a := rfl

/-- Inner error propagates. -/
@[simp]
lemma resBind_err {A B : Type} (e : Error) (f : A → Res B) : resBind (Res.err e) f = Res.err e := rfl

/-- Inner panic propagates. -/
@[simp]
lemma resBind_panic {A B : Type} (f : A → Res B) : resBind Res.panic f = Res.panic := rfl

/-- The Quote struct of the source: an owned byte buffer. -/
structure Quote where
  bytes : List Nat
deriving DecidableEq, Repr

/-- Models Quote::from_bytes: unconditionally copies the input bytes. -/
def Quote.from_bytes (bytes : List Nat) : Quote :=
  { bytes := bytes }

/-- Models Quote::get_header_and_enclave_report_body: the slice
bytes[..QUOTE_HEADER_SIZE + ENCLAVE_REPORT_SIZE]. -/
def Quote.get_header_and_enclave_report_body (q : Quote) : Option (List Nat) :=
  sliceRange q.bytes 0 (QUOTE_HEADER_SIZE + ENCLAVE_REPORT_SIZE)

/-- Models Quote::get_quoting_enclave_report: the slice
bytes[QUOTING_ENCLAVE_REPORT_START..QUOTING_ENCLAVE_REPORT_START + ENCLAVE_REPORT_SIZE]. -/
def Quote.get_quoting_enclave_report (q : Quote) : Option (List Nat) :=
  sliceRange q.bytes QUOTING_ENCLAVE_REPORT_START
    (QUOTING_ENCLAVE_REPORT_START + ENCLAVE_REPORT_SIZE)

/-- Models Quote::get_qe_authentication_data: reads the 2-byte
little-endian size field and then slices exactly that many bytes starting
at QUOTING_ENCLAVE_AUTHENTICATION_DATA_START, with no bounds check beyond
the trap of the slice expression itself. -/
def Quote.get_qe_authentication_data (q : Quote) : Option (List Nat) :=
  (sliceRange q.bytes QUOTING_ENCLAVE_AUTHENTICATION_DATA_SIZE_START
      (QUOTING_ENCLAVE_AUTHENTICATION_DATA_SIZE_START + 2)).bind fun size_bytes =>
    sliceRange q.bytes QUOTING_ENCLAVE_AUTHENTICATION_DATA_START
      (QUOTING_ENCLAVE_AUTHENTICATION_DATA_START + u16_le size_bytes)

/-- Models Quote::get_attestation_key: slices the 64 attestation key bytes,
decodes them as an untagged P-256 point, and maps a decode failure to
Error.Key with the diagnostic text. -/
def Quote.get_attestation_key {PKey Sig Pem Cert : Type}
    (cm : CryptoModel PKey Sig Pem Cert) (q : Quote) : Res PKey :=
  liftOption (sliceRange q.bytes ATTESTATION_KEY_START (ATTESTATION_KEY_START + KEY_SIZE))
    fun kb =>
      liftExcept Error.Key (cm.keyFromUntaggedBytes kb) fun k => Res.ok k

/-- Models Quote::get_pck_pem: parses a PEM document starting at the
hardcoded offset 0x41C, mapping a parse failure to Error.PemParsing. -/
def Quote.get_pck_pem {PKey Sig Pem Cert : Type}
    (cm : CryptoModel PKey Sig Pem Cert) (q : Quote) : Res Pem :=
  liftOption (sliceFrom q.bytes PCK_PEM_OFFSET) fun tail =>
    liftExcept Error.PemParsing (cm.parsePem tail) fun pem => Res.ok pem

/-- Models Quote::verify_signature: slices 64 signature bytes at the given
offset, decodes them as a raw signature (failure maps to Error.Signature
through the From impl for the ecdsa error), then runs ECDSA verification
(failure likewise maps to Error.Signature). -/
def Quote.verify_signature {PKey Sig Pem Cert : Type}
    (cm : CryptoModel PKey Sig Pem Cert) (q : Quote)
    (msg : List Nat) (signature_offset : Nat) (key : PKey) : Res Unit :=
  liftOption (sliceRange q.bytes signature_offset (signature_offset + SIGNATURE_SIZE))
    fun sb =>
      liftExcept Error.Signature (cm.sigFromBytes sb) fun s =>
        liftExcept Error.Signature (cm.ecdsaVerify key msg s) fun _ => Res.ok ()

/-- Models Quote::verify_enclave_report_body: message is the header plus
enclave report body, key is the attestation key, signature sits at
ISV_ENCLAVE_SIGNATURE_START. -/
def Quote.verify_enclave_report_body {PKey Sig Pem Cert : Type}
    (cm : CryptoModel PKey Sig Pem Cert) (q : Quote) : Res Unit :=
  liftOption q.get_header_and_enclave_report_body fun msg =>
    resBind (Quote.get_attestation_key cm q) fun key =>
      Quote.verify_signature cm q msg ISV_ENCLAVE_SIGNATURE_START key

/-- Models Quote::verify_quoting_enclave_report: message is the quoting
enclave report, key comes from the PEM certificate found by get_pck_pem
(X509 parse failure maps to Error.PemParsing through the From impl for the
X509 error, SPKI decode failure maps to Error.Signature through the From
impl for the spki error), signature sits at QUOTING_ENCLAVE_SIGNATURE_START. -/
def Quote.verify_quoting_enclave_report {PKey Sig Pem Cert : Type}
    (cm : CryptoModel PKey Sig Pem Cert) (q : Quote) : Res Unit :=
  liftOption q.get_quoting_enclave_report fun msg =>
    resBind (Quote.get_pck_pem cm q) fun pem =>
      liftExcept Error.PemParsing (cm.parseX509 pem) fun cert =>
        liftExcept Error.Signature (cm.spkiToKey cert) fun key =>
          Quote.verify_signature cm q msg QUOTING_ENCLAVE_SIGNATURE_START key

/-- Models Quote::verify_attestation_key: hashes the attestation key bytes
followed by the authentication data, compares the first 32 bytes of the
quoting enclave report data with the digest and requires the remaining 32
bytes to be zero; any mismatch yields the single Error.AttestationKey. -/
def Quote.verify_attestation_key {PKey Sig Pem Cert : Type}
    (cm : CryptoModel PKey Sig Pem Cert) (q : Quote) : Res Unit :=
  liftOption (sliceRange q.bytes ATTESTATION_KEY_START (ATTESTATION_KEY_START + KEY_SIZE))
    fun key =>
      liftOption q.get_qe_authentication_data fun authentication_data =>
        let hash := cm.sha256 (key ++ authentication_data)
        liftOption (sliceRange q.bytes QUOTING_ENCLAVE_REPORT_DATA_START
            (QUOTING_ENCLAVE_REPORT_DATA_START + QUOTING_ENCLAVE_REPORT_DATA_DIGEST_SIZE))
          fun report_data =>
            liftOption (sliceRange q.bytes
                (QUOTING_ENCLAVE_REPORT_DATA_START + QUOTING_ENCLAVE_REPORT_DATA_DIGEST_SIZE)
                (QUOTING_ENCLAVE_REPORT_DATA_START + ENCLAVE_REPORT_DATA_SIZE))
              fun zero_pad =>
                if report_data = hash ∧
                    zero_pad =
                      List.replicate
                        (ENCLAVE_REPORT_DATA_SIZE - QUOTING_ENCLAVE_REPORT_DATA_DIGEST_SIZE) 0 then
                  Res.ok ()
                else
                  Res.err Error.AttestationKey

/-- Concrete crypto model in which every library call succeeds and the hash
of anything is 32 zero bytes; used to evaluate the embedding on concrete
buffers. -/
def cmZero : CryptoModel Unit Unit Unit Unit where
  sha256 := fun _ => List.replicate 32 0
  keyFromUntaggedBytes := fun _ => Except.ok ()
  sigFromBytes := fun _ => Except.ok ()
  ecdsaVerify := fun _ _ _ => Except.ok ()
  parsePem := fun _ => Except.ok ()
  parseX509 := fun _ => Except.ok ()
  spkiToKey := fun _ => Except.ok ()

/-- Concrete crypto model whose PEM parser rejects every input, as the real
parser does on an input with no PEM header (for example the empty slice). -/
def cmPemFail : CryptoModel Unit Unit Unit Unit where
  sha256 := fun _ => List.replicate 32 0
  keyFromUntaggedBytes := fun _ => Except.ok ()
  sigFromBytes := fun _ => Except.ok ()
  ecdsaVerify := fun _ _ _ => Except.ok ()
  parsePem := fun _ => Except.error "pem"
  parseX509 := fun _ => Except.ok ()
  spkiToKey := fun _ => Except.ok ()

/-- Concrete crypto model whose PEM and X509 parsing succeed but whose SPKI
key decode fails, to observe which error variant the code returns for a
certificate key decode failure. -/
def cmSpkiFail : CryptoModel Unit Unit Unit Unit where
  sha256 := fun _ => List.replicate 32 0
  keyFromUntaggedBytes := fun _ => Except.ok ()
  sigFromBytes := fun _ => Except.ok ()
  ecdsaVerify := fun _ _ _ => Except.ok ()
  parsePem := fun _ => Except.ok ()
  parseX509 := fun _ => Except.ok ()
  spkiToKey := fun _ => Except.error "spki"

/-- Concrete crypto model whose PEM type is the raw byte list handed to the
parser, to observe exactly which bytes get_pck_pem parses. -/
def cmObservePem : CryptoModel Unit Unit (List Nat) Unit where
  sha256 := fun _ => List.replicate 32 0
  keyFromUntaggedBytes := fun _ => Except.ok ()
  sigFromBytes := fun _ => Except.ok ()
  ecdsaVerify := fun _ _ _ => Except.ok ()
  parsePem := fun l => Except.ok l
  parseX509 := fun _ => Except.ok ()
  spkiToKey := fun _ => Except.ok ()

/-- All-zero buffer of 1014 bytes: long enough for every fixed field and
for a declared authentication data length of zero. -/
def zeroQuote1014 : List Nat := List.replicate 1014 0

/-- Buffer of 1014 bytes whose authentication data size field declares one
byte of authentication data while zero bytes remain after offset 1014. -/
def authOverflowQuote : List Nat := List.replicate 1012 0 ++ [1, 0]

/-- Buffer of 1060 sevens except for a zero authentication data size field,
so the declared authentication data is empty and a dynamically computed
certification data offset would be 1014, not the hardcoded 1052. -/
def certOffsetQuote : List Nat := List.replicate 1012 7 ++ [0, 0] ++ List.replicate 46 7

/-- All-zero buffer whose length is exactly the hardcoded certificate
offset, so the PEM parser receives the empty slice. -/
def zeroQuote1052 : List Nat := List.replicate 1052 0

/-- Decides whether a result is a PemParsing error. -/
def isPemParsingRes {A : Type} : Res A → Bool
  | Res.err (Error.PemParsing _) => true
  | _ => false

/-- Decides whether a result is a Key error. -/
def isKeyRes {A : Type} : Res A → Bool
  | Res.err (Error.Key _) => true
  | _ => false

/-- Projection of from_bytes is the identity on the byte list. -/
@[simp]
lemma from_bytes_bytes (b : List Nat) : (Quote.from_bytes b).bytes = b := rfl

/-- A slice whose bounds fit in the buffer yields the drop-take fragment. -/
lemma sliceRange_of_le {bytes : List Nat} {s t : Nat} (h1 : s ≤ t) (h2 : t ≤ bytes.length) :
    sliceRange bytes s t = some ((bytes.drop s).take (t - s)) := by
  unfold sliceRange
  rw [if_pos ⟨h1, h2⟩]

/-- A fixed-size field slice starting at s with n bytes, when it fits. -/
lemma sliceRange_field {bytes : List Nat} (s n : Nat) (h : s + n ≤ bytes.length) :
    sliceRange bytes s (s + n) = some ((bytes.drop s).take n) := by
  rw [sliceRange_of_le (Nat.le_add_right s n) h, Nat.add_sub_cancel_left]

/-- A prefix slice of n bytes, when it fits. -/
lemma sliceRange_prefix {bytes : List Nat} (n : Nat) (h : n ≤ bytes.length) :
    sliceRange bytes 0 n = some (bytes.take n) := by
  rw [sliceRange_of_le (Nat.zero_le n) h, Nat.sub_zero, List.drop_zero]

/-- A slice reaching past the end of the buffer traps. -/
lemma sliceRange_none {bytes : List Nat} {s t : Nat} (h : bytes.length < t) :
    sliceRange bytes s t = none := by
  unfold sliceRange
  rw [if_neg]
  intro hc
  omega

/-- A suffix slice starting inside the buffer. -/
lemma sliceFrom_some {bytes : List Nat} {s : Nat} (h : s ≤ bytes.length) :
    sliceFrom bytes s = some (bytes.drop s) := by
  unfold sliceFrom
  rw [if_pos h]

/-- A suffix slice starting past the end of the buffer traps. -/
lemma sliceFrom_none {bytes : List Nat} {s : Nat} (h : bytes.length < s) :
    sliceFrom bytes s = none := by
  unfold sliceFrom
  rw [if_neg]
  omega

/-- C8: the field offsets used by the verification operations equal the
DCAP layout exactly: the ISV-signed message spans bytes 0..432 (48-byte
header plus 384-byte enclave report body), the ISV signature starts at
byte 436 after a 4-byte signature-length preamble, the 64-byte attestation
key at 500, the 384-byte QE report at 564 with its 64-byte report data at
internal offset 320 (absolute 884), the QE report signature at 948, the
2-byte auth data length at 1012 and the auth data at 1014. -/
theorem dcap_layout_offsets :
    QUOTE_HEADER_SIZE = 48 ∧
    ENCLAVE_REPORT_SIZE = 384 ∧
    QUOTE_HEADER_SIZE + ENCLAVE_REPORT_SIZE = 432 ∧
    ISV_ENCLAVE_SIGNATURE_START = QUOTE_HEADER_SIZE + ENCLAVE_REPORT_SIZE + 4 ∧
    ISV_ENCLAVE_SIGNATURE_START = 436 ∧
    SIGNATURE_SIZE = 64 ∧
    ATTESTATION_KEY_START = 500 ∧
    KEY_SIZE = 64 ∧
    QUOTING_ENCLAVE_REPORT_START = 564 ∧
    QUOTING_ENCLAVE_REPORT_DATA_START = QUOTING_ENCLAVE_REPORT_START + 320 ∧
    QUOTING_ENCLAVE_REPORT_DATA_START = 884 ∧
    ENCLAVE_REPORT_DATA_SIZE = 64 ∧
    QUOTING_ENCLAVE_SIGNATURE_START = 948 ∧
    QUOTING_ENCLAVE_AUTHENTICATION_DATA_SIZE_START = 1012 ∧
    QUOTING_ENCLAVE_AUTHENTICATION_DATA_START = 1014 := by
  decide

/-- C9: construction of a Quote from bytes is total and infallible and the
owned buffer is an exact copy of the input, for every input including the
empty list (from_bytes is a total Lean function, so it cannot fail). -/
theorem from_bytes_total_exact_copy :
    ∀ (bytes : List Nat), (Quote.from_bytes bytes).bytes = bytes :=
  fun _ => rfl

/-- C1: contrary to the claim, the buffer-indexing accessors do not return
a length error on a too-short buffer: on the empty buffer every accessor
used by the three verification operations traps (none models a Rust index
panic) and all three operations panic instead of returning an error. -/
theorem accessors_trap_on_truncated_buffer :
    Quote.get_header_and_enclave_report_body (Quote.from_bytes []) = none ∧
    sliceRange ([] : List Nat) ATTESTATION_KEY_START (ATTESTATION_KEY_START + KEY_SIZE) = none ∧
    Quote.get_quoting_enclave_report (Quote.from_bytes []) = none ∧
    sliceRange ([] : List Nat) QUOTING_ENCLAVE_REPORT_DATA_START
      (QUOTING_ENCLAVE_REPORT_DATA_START + QUOTING_ENCLAVE_REPORT_DATA_DIGEST_SIZE) = none ∧
    Quote.get_qe_authentication_data (Quote.from_bytes []) = none ∧
    sliceFrom ([] : List Nat) PCK_PEM_OFFSET = none ∧
    Quote.verify_enclave_report_body cmZero (Quote.from_bytes []) = Res.panic ∧
    Quote.verify_quoting_enclave_report cmZero (Quote.from_bytes []) = Res.panic ∧
    Quote.verify_attestation_key cmZero (Quote.from_bytes []) = Res.panic := by
  decide

/-- C2: the QE authentication data accessor reads the 2-byte little-endian
length at offset 1012 but does not bounds-check it against the remaining
buffer: on a 1014-byte buffer declaring one byte of authentication data
the accessor traps (none models the Rust out-of-range slice panic) instead
of failing with a length error, and verify_attestation_key panics. -/
theorem qe_authentication_data_unchecked_read_traps :
    sliceRange authOverflowQuote QUOTING_ENCLAVE_AUTHENTICATION_DATA_SIZE_START
      (QUOTING_ENCLAVE_AUTHENTICATION_DATA_SIZE_START + 2) = some [1, 0] ∧
    u16_le [1, 0] = 1 ∧
    authOverflowQuote.length = 1014 ∧
    Quote.get_qe_authentication_data (Quote.from_bytes authOverflowQuote) = none ∧
    Quote.verify_attestation_key cmZero (Quote.from_bytes authOverflowQuote) = Res.panic := by
  decide

/-- C4: the certification data parse starts at the hardcoded offset 0x41C
(1052) and not at an offset computed from the parsed authentication data
length: on a buffer whose declared authentication data length is zero, the
bytes handed to the PEM parser are the suffix from 1052, which differs
from the suffix at the dynamically computed offset 1014 + 0. -/
theorem pck_pem_parse_offset_hardcoded :
    Quote.get_qe_authentication_data (Quote.from_bytes certOffsetQuote) = some [] ∧
    Quote.get_pck_pem cmObservePem (Quote.from_bytes certOffsetQuote) =
      Res.ok (certOffsetQuote.drop PCK_PEM_OFFSET) ∧
    certOffsetQuote.drop PCK_PEM_OFFSET ≠
      certOffsetQuote.drop (QUOTING_ENCLAVE_AUTHENTICATION_DATA_START + 0) := by
  decide

/-- C6 counterexample: the empty buffer is a quote truncated to a length
before the certificate offset, yet verify_quoting_enclave_report panics on
it (out-of-bounds slice) instead of returning a PemParsing error. -/
theorem truncated_quote_panics_not_pem_error :
    Quote.verify_quoting_enclave_report cmPemFail (Quote.from_bytes []) = Res.panic ∧
    isPemParsingRes (Quote.verify_quoting_enclave_report cmPemFail (Quote.from_bytes [])) =
      false := by
  decide

/-- C7 counterexample: with PEM and X509 parsing succeeding and the SPKI
key decode failing, verify_quoting_enclave_report returns the Signature
variant carrying the SPKI diagnostic, not the Key variant the claim names
for a key decode failure. -/
theorem spki_decode_failure_is_signature_variant :
    Quote.verify_quoting_enclave_report cmSpkiFail (Quote.from_bytes zeroQuote1052) =
      Res.err (Error.Signature "spki") ∧
    isKeyRes (Quote.verify_quoting_enclave_report cmSpkiFail (Quote.from_bytes zeroQuote1052)) =
      false := by
  decide

/-- Every result of get_attestation_key is a panic, a Key error or a key. -/
lemma get_attestation_key_cases {PKey Sig Pem Cert : Type}
    (cm : CryptoModel PKey Sig Pem Cert) (q : Quote) :
    Quote.get_attestation_key cm q = Res.panic ∨
    (∃ s, Quote.get_attestation_key cm q = Res.err (Error.Key s)) ∨
    (∃ k, Quote.get_attestation_key cm q = Res.ok k) := by
  unfold Quote.get_attestation_key
  cases hsl : sliceRange q.bytes ATTESTATION_KEY_START (ATTESTATION_KEY_START + KEY_SIZE) with
  | none => exact Or.inl rfl
  | some kb =>
    simp only [liftOption_some]
    cases hk : cm.keyFromUntaggedBytes kb with
    | error e => exact Or.inr (Or.inl ⟨e, rfl⟩)
    | ok k => exact Or.inr (Or.inr ⟨k, rfl⟩)

/-- Every result of get_pck_pem is a panic, a PemParsing error or a pem. -/
lemma get_pck_pem_cases {PKey Sig Pem Cert : Type}
    (cm : CryptoModel PKey Sig Pem Cert) (q : Quote) :
    Quote.get_pck_pem cm q = Res.panic ∨
    (∃ s, Quote.get_pck_pem cm q = Res.err (Error.PemParsing s)) ∨
    (∃ pem, Quote.get_pck_pem cm q = Res.ok pem) := by
  unfold Quote.get_pck_pem
  cases hsl : sliceFrom q.bytes PCK_PEM_OFFSET with
  | none => exact Or.inl rfl
  | some tail =>
    simp only [liftOption_some]
    cases hp : cm.parsePem tail with
    | error e => exact Or.inr (Or.inl ⟨e, rfl⟩)
    | ok pem => exact Or.inr (Or.inr ⟨pem, rfl⟩)

/-- Every result of verify_signature is a panic, a Signature error or ok. -/
lemma verify_signature_cases {PKey Sig Pem Cert : Type}
    (cm : CryptoModel PKey Sig Pem Cert) (q : Quote)
    (msg : List Nat) (off : Nat) (key : PKey) :
    Quote.verify_signature cm q msg off key = Res.panic ∨
    (∃ s, Quote.verify_signature cm q msg off key = Res.err (Error.Signature s)) ∨
    Quote.verify_signature cm q msg off key = Res.ok () := by
  unfold Quote.verify_signature
  cases hsl : sliceRange q.bytes off (off + SIGNATURE_SIZE) with
  | none => exact Or.inl rfl
  | some sb =>
    simp only [liftOption_some]
    cases hsig : cm.sigFromBytes sb with
    | error e => exact Or.inr (Or.inl ⟨e, rfl⟩)
    | ok s =>
      simp only [liftExcept_ok]
      cases hv : cm.ecdsaVerify key msg s with
      | error e => exact Or.inr (Or.inl ⟨e, rfl⟩)
      | ok u => exact Or.inr (Or.inr rfl)

/-- Every result of verify_enclave_report_body is a panic, a Key error, a
Signature error or ok. -/
lemma verify_enclave_report_body_cases {PKey Sig Pem Cert : Type}
    (cm : CryptoModel PKey Sig Pem Cert) (q : Quote) :
    Quote.verify_enclave_report_body cm q = Res.panic ∨
    (∃ s, Quote.verify_enclave_report_body cm q = Res.err (Error.Key s)) ∨
    (∃ s, Quote.verify_enclave_report_body cm q = Res.err (Error.Signature s)) ∨
    Quote.verify_enclave_report_body cm q = Res.ok () := by
  unfold Quote.verify_enclave_report_body
  cases hm : q.get_header_and_enclave_report_body with
  | none => exact Or.inl rfl
  | some msg =>
    simp only [liftOption_some]
    rcases get_attestation_key_cases cm q with hk | ⟨s, hk⟩ | ⟨k, hk⟩ <;>
      rw [hk] <;> simp only [resBind_ok, resBind_err, resBind_panic]
    · exact Or.inl trivial
    · exact Or.inr (Or.inl ⟨s, rfl⟩)
    · rcases verify_signature_cases cm q msg ISV_ENCLAVE_SIGNATURE_START k with
        h | ⟨s, h⟩ | h
      · exact Or.inl h
      · exact Or.inr (Or.inr (Or.inl ⟨s, h⟩))
      · exact Or.inr (Or.inr (Or.inr h))

/-- Every result of verify_quoting_enclave_report is a panic, a PemParsing
error, a Signature error or ok. -/
lemma verify_quoting_enclave_report_cases {PKey Sig Pem Cert : Type}
    (cm : CryptoModel PKey Sig Pem Cert) (q : Quote) :
    Quote.verify_quoting_enclave_report cm q = Res.panic ∨
    (∃ s, Quote.verify_quoting_enclave_report cm q = Res.err (Error.PemParsing s)) ∨
    (∃ s, Quote.verify_quoting_enclave_report cm q = Res.err (Error.Signature s)) ∨
    Quote.verify_quoting_enclave_report cm q = Res.ok () := by
  unfold Quote.verify_quoting_enclave_report
  cases hm : q.get_quoting_enclave_report with
  | none => exact Or.inl rfl
  | some msg =>
    simp only [liftOption_some]
    rcases get_pck_pem_cases cm q with hp | ⟨s, hp⟩ | ⟨pem, hp⟩ <;>
      rw [hp] <;> simp only [resBind_ok, resBind_err, resBind_panic]
    · exact Or.inl trivial
    · exact Or.inr (Or.inl ⟨s, rfl⟩)
    · cases hx : cm.parseX509 pem with
      | error e => exact Or.inr (Or.inl ⟨e, rfl⟩)
      | ok cert =>
        simp only [liftExcept_ok]
        cases hk : cm.spkiToKey cert with
        | error e => exact Or.inr (Or.inr (Or.inl ⟨e, rfl⟩))
        | ok key =>
          simp only [liftExcept_ok]
          rcases verify_signature_cases cm q msg QUOTING_ENCLAVE_SIGNATURE_START key with
            h | ⟨s, h⟩ | h
          · exact Or.inl h
          · exact Or.inr (Or.inr (Or.inl ⟨s, h⟩))
          · exact Or.inr (Or.inr (Or.inr h))

/-- Every result of verify_attestation_key is a panic, the AttestationKey
error or ok. -/
lemma verify_attestation_key_cases {PKey Sig Pem Cert : Type}
    (cm : CryptoModel PKey Sig Pem Cert) (q : Quote) :
    Quote.verify_attestation_key cm q = Res.panic ∨
    Quote.verify_attestation_key cm q = Res.err Error.AttestationKey ∨
    Quote.verify_attestation_key cm q = Res.ok () := by
  unfold Quote.verify_attestation_key
  cases h1 : sliceRange q.bytes ATTESTATION_KEY_START (ATTESTATION_KEY_START + KEY_SIZE) with
  | none => exact Or.inl rfl
  | some key =>
    simp only [liftOption_some]
    cases h2 : q.get_qe_authentication_data with
    | none => exact Or.inl rfl
    | some auth =>
      simp only [liftOption_some]
      cases h3 : sliceRange q.bytes QUOTING_ENCLAVE_REPORT_DATA_START
          (QUOTING_ENCLAVE_REPORT_DATA_START + QUOTING_ENCLAVE_REPORT_DATA_DIGEST_SIZE) with
      | none => exact Or.inl rfl
      | some report_data =>
        simp only [liftOption_some]
        cases h4 : sliceRange q.bytes
            (QUOTING_ENCLAVE_REPORT_DATA_START + QUOTING_ENCLAVE_REPORT_DATA_DIGEST_SIZE)
            (QUOTING_ENCLAVE_REPORT_DATA_START + ENCLAVE_REPORT_DATA_SIZE) with
        | none => exact Or.inl rfl
        | some zero_pad =>
          simp only [liftOption_some]
          by_cases h5 : report_data = cm.sha256 (key ++ auth) ∧
              zero_pad = List.replicate
                (ENCLAVE_REPORT_DATA_SIZE - QUOTING_ENCLAVE_REPORT_DATA_DIGEST_SIZE) 0
          · right; right
            simp only [if_pos h5]
          · right; left
            simp only [if_neg h5]

/-- C10: the Certificate error variant is unreachable at the public
interface: for every crypto model and every input buffer, none of the
three verification operations returns the Certificate error; every failure
is PemParsing, Signature, Key or AttestationKey. -/
theorem certificate_error_unreachable {PKey Sig Pem Cert : Type}
    (cm : CryptoModel PKey Sig Pem Cert) (bytes : List Nat) :
    Quote.verify_enclave_report_body cm (Quote.from_bytes bytes) ≠ Res.err Error.Certificate ∧
    Quote.verify_quoting_enclave_report cm (Quote.from_bytes bytes) ≠ Res.err Error.Certificate ∧
    Quote.verify_attestation_key cm (Quote.from_bytes bytes) ≠ Res.err Error.Certificate := by
  refine ⟨?_, ?_, ?_⟩
  · rcases verify_enclave_report_body_cases cm (Quote.from_bytes bytes) with
      h | ⟨s, h⟩ | ⟨s, h⟩ | h <;> rw [h] <;> simp
  · rcases verify_quoting_enclave_report_cases cm (Quote.from_bytes bytes) with
      h | ⟨s, h⟩ | ⟨s, h⟩ | h <;> rw [h] <;> simp
  · rcases verify_attestation_key_cases cm (Quote.from_bytes bytes) with
      h | h | h <;> rw [h] <;> simp

/-- C10 witness: the three operations applied to the concrete crypto model
in which every library call succeeds, on the empty buffer, do not return
the Certificate error. -/
theorem certificate_error_unreachable_witness :
    Quote.verify_enclave_report_body cmZero (Quote.from_bytes []) ≠ Res.err Error.Certificate ∧
    Quote.verify_quoting_enclave_report cmZero (Quote.from_bytes []) ≠ Res.err Error.Certificate ∧
    Quote.verify_attestation_key cmZero (Quote.from_bytes []) ≠ Res.err Error.Certificate :=
  certificate_error_unreachable cmZero []

/-- C3 helper: for a buffer long enough, verify_attestation_key reduces to
the binding comparison on the drop-take fragments. -/
lemma verify_attestation_key_reduces {PKey Sig Pem Cert : Type}
    (cm : CryptoModel PKey Sig Pem Cert) (bytes auth : List Nat)
    (hlen : QUOTING_ENCLAVE_SIGNATURE_START ≤ bytes.length)
    (hauth : Quote.get_qe_authentication_data (Quote.from_bytes bytes) = some auth) :
    Quote.verify_attestation_key cm (Quote.from_bytes bytes) =
      if (bytes.drop QUOTING_ENCLAVE_REPORT_DATA_START).take
            QUOTING_ENCLAVE_REPORT_DATA_DIGEST_SIZE =
          cm.sha256 ((bytes.drop ATTESTATION_KEY_START).take KEY_SIZE ++ auth) ∧
          (bytes.drop
              (QUOTING_ENCLAVE_REPORT_DATA_START + QUOTING_ENCLAVE_REPORT_DATA_DIGEST_SIZE)).take
            (ENCLAVE_REPORT_DATA_SIZE - QUOTING_ENCLAVE_REPORT_DATA_DIGEST_SIZE) =
          List.replicate (ENCLAVE_REPORT_DATA_SIZE - QUOTING_ENCLAVE_REPORT_DATA_DIGEST_SIZE) 0
      then Res.ok () else Res.err Error.AttestationKey := by
  have h948 : 948 ≤ bytes.length := hlen
  have hkey : sliceRange bytes ATTESTATION_KEY_START (ATTESTATION_KEY_START + KEY_SIZE) =
      some ((bytes.drop ATTESTATION_KEY_START).take KEY_SIZE) :=
    sliceRange_field _ _ (show (564 : Nat) ≤ bytes.length by omega)
  have hrd : sliceRange bytes QUOTING_ENCLAVE_REPORT_DATA_START
      (QUOTING_ENCLAVE_REPORT_DATA_START + QUOTING_ENCLAVE_REPORT_DATA_DIGEST_SIZE) =
      some ((bytes.drop QUOTING_ENCLAVE_REPORT_DATA_START).take
        QUOTING_ENCLAVE_REPORT_DATA_DIGEST_SIZE) :=
    sliceRange_field _ _ (show (916 : Nat) ≤ bytes.length by omega)
  have hpad : sliceRange bytes
      (QUOTING_ENCLAVE_REPORT_DATA_START + QUOTING_ENCLAVE_REPORT_DATA_DIGEST_SIZE)
      (QUOTING_ENCLAVE_REPORT_DATA_START + ENCLAVE_REPORT_DATA_SIZE) =
      some ((bytes.drop
          (QUOTING_ENCLAVE_REPORT_DATA_START + QUOTING_ENCLAVE_REPORT_DATA_DIGEST_SIZE)).take
        (ENCLAVE_REPORT_DATA_SIZE - QUOTING_ENCLAVE_REPORT_DATA_DIGEST_SIZE)) := by
    have hle1 : QUOTING_ENCLAVE_REPORT_DATA_START + QUOTING_ENCLAVE_REPORT_DATA_DIGEST_SIZE ≤
        QUOTING_ENCLAVE_REPORT_DATA_START + ENCLAVE_REPORT_DATA_SIZE := by decide
    have hle2 : QUOTING_ENCLAVE_REPORT_DATA_START + ENCLAVE_REPORT_DATA_SIZE ≤ bytes.length := h948
    rw [sliceRange_of_le hle1 hle2]
    rfl
  simp only [Quote.verify_attestation_key, from_bytes_bytes]
  rw [hkey]
  simp only [liftOption_some]
  rw [hauth]
  simp only [liftOption_some]
  rw [hrd]
  simp only [liftOption_some]
  rw [hpad]
  simp only [liftOption_some]

/-- C3: for a buffer long enough for the accessed fields, the attestation
key check succeeds exactly when the first 32 bytes of the QE report data
equal the sha256 digest of the attestation key bytes followed by the QE
authentication data and the remaining 32 report data bytes are all zero,
and any failure is the single AttestationKey error. -/
theorem verify_attestation_key_binding_iff {PKey Sig Pem Cert : Type}
    (cm : CryptoModel PKey Sig Pem Cert) (bytes auth : List Nat)
    (hlen : QUOTING_ENCLAVE_SIGNATURE_START ≤ bytes.length)
    (hauth : Quote.get_qe_authentication_data (Quote.from_bytes bytes) = some auth) :
    (Quote.verify_attestation_key cm (Quote.from_bytes bytes) = Res.ok () ↔
      ((bytes.drop QUOTING_ENCLAVE_REPORT_DATA_START).take
          QUOTING_ENCLAVE_REPORT_DATA_DIGEST_SIZE =
        cm.sha256 ((bytes.drop ATTESTATION_KEY_START).take KEY_SIZE ++ auth) ∧
       (bytes.drop
           (QUOTING_ENCLAVE_REPORT_DATA_START + QUOTING_ENCLAVE_REPORT_DATA_DIGEST_SIZE)).take
          (ENCLAVE_REPORT_DATA_SIZE - QUOTING_ENCLAVE_REPORT_DATA_DIGEST_SIZE) =
        List.replicate (ENCLAVE_REPORT_DATA_SIZE - QUOTING_ENCLAVE_REPORT_DATA_DIGEST_SIZE) 0)) ∧
    (¬ ((bytes.drop QUOTING_ENCLAVE_REPORT_DATA_START).take
          QUOTING_ENCLAVE_REPORT_DATA_DIGEST_SIZE =
        cm.sha256 ((bytes.drop ATTESTATION_KEY_START).take KEY_SIZE ++ auth) ∧
       (bytes.drop
           (QUOTING_ENCLAVE_REPORT_DATA_START + QUOTING_ENCLAVE_REPORT_DATA_DIGEST_SIZE)).take
          (ENCLAVE_REPORT_DATA_SIZE - QUOTING_ENCLAVE_REPORT_DATA_DIGEST_SIZE) =
        List.replicate (ENCLAVE_REPORT_DATA_SIZE - QUOTING_ENCLAVE_REPORT_DATA_DIGEST_SIZE) 0) →
      Quote.verify_attestation_key cm (Quote.from_bytes bytes) = Res.err Error.AttestationKey) := by
  rw [verify_attestation_key_reduces cm bytes auth hlen hauth]
  by_cases h : (bytes.drop QUOTING_ENCLAVE_REPORT_DATA_START).take
        QUOTING_ENCLAVE_REPORT_DATA_DIGEST_SIZE =
      cm.sha256 ((bytes.drop ATTESTATION_KEY_START).take KEY_SIZE ++ auth) ∧
      (bytes.drop
          (QUOTING_ENCLAVE_REPORT_DATA_START + QUOTING_ENCLAVE_REPORT_DATA_DIGEST_SIZE)).take
        (ENCLAVE_REPORT_DATA_SIZE - QUOTING_ENCLAVE_REPORT_DATA_DIGEST_SIZE) =
      List.replicate (ENCLAVE_REPORT_DATA_SIZE - QUOTING_ENCLAVE_REPORT_DATA_DIGEST_SIZE) 0
  · rw [if_pos h]
    exact ⟨iff_of_true rfl h, fun hn => absurd h hn⟩
  · rw [if_neg h]
    exact ⟨iff_of_false (by simp) h, fun _ => rfl⟩

/-- C3 witness: on the all-zero 1014-byte buffer with the all-succeeding
model the hypotheses hold and both parts of the binding characterization
are realized concretely. -/
theorem verify_attestation_key_binding_iff_witness :
    (QUOTING_ENCLAVE_SIGNATURE_START ≤ zeroQuote1014.length ∧
     Quote.get_qe_authentication_data (Quote.from_bytes zeroQuote1014) = some []) ∧
    (Quote.verify_attestation_key cmZero (Quote.from_bytes zeroQuote1014) = Res.ok () ↔
      ((zeroQuote1014.drop QUOTING_ENCLAVE_REPORT_DATA_START).take
          QUOTING_ENCLAVE_REPORT_DATA_DIGEST_SIZE =
        cmZero.sha256 ((zeroQuote1014.drop ATTESTATION_KEY_START).take KEY_SIZE ++ []) ∧
       (zeroQuote1014.drop
           (QUOTING_ENCLAVE_REPORT_DATA_START + QUOTING_ENCLAVE_REPORT_DATA_DIGEST_SIZE)).take
          (ENCLAVE_REPORT_DATA_SIZE - QUOTING_ENCLAVE_REPORT_DATA_DIGEST_SIZE) =
        List.replicate (ENCLAVE_REPORT_DATA_SIZE - QUOTING_ENCLAVE_REPORT_DATA_DIGEST_SIZE) 0)) ∧
    (¬ ((zeroQuote1014.drop QUOTING_ENCLAVE_REPORT_DATA_START).take
          QUOTING_ENCLAVE_REPORT_DATA_DIGEST_SIZE =
        cmZero.sha256 ((zeroQuote1014.drop ATTESTATION_KEY_START).take KEY_SIZE ++ []) ∧
       (zeroQuote1014.drop
           (QUOTING_ENCLAVE_REPORT_DATA_START + QUOTING_ENCLAVE_REPORT_DATA_DIGEST_SIZE)).take
          (ENCLAVE_REPORT_DATA_SIZE - QUOTING_ENCLAVE_REPORT_DATA_DIGEST_SIZE) =
        List.replicate (ENCLAVE_REPORT_DATA_SIZE - QUOTING_ENCLAVE_REPORT_DATA_DIGEST_SIZE) 0) →
      Quote.verify_attestation_key cmZero (Quote.from_bytes zeroQuote1014) =
        Res.err Error.AttestationKey) :=
  ⟨⟨by decide, by decide⟩,
    verify_attestation_key_binding_iff cmZero zeroQuote1014 [] (by decide) (by decide)⟩

/-- Binding composed with a key decode that just returns the key. -/
lemma resBind_liftExcept_ok {A B : Type} (w : String → Error) (x : Except String A)
    (g : A → Res B) :
    resBind (liftExcept w x (fun a => Res.ok a)) g = liftExcept w x g := by
  cases x <;> rfl

/-- C5 helper: for a buffer long enough, verify_enclave_report_body reduces
to key decode, signature decode and ECDSA verification over the header plus
report body message, the attestation key bytes and the ISV signature bytes. -/
lemma verify_enclave_report_body_reduces {PKey Sig Pem Cert : Type}
    (cm : CryptoModel PKey Sig Pem Cert) (bytes : List Nat)
    (h : ATTESTATION_KEY_START + KEY_SIZE ≤ bytes.length) :
    Quote.verify_enclave_report_body cm (Quote.from_bytes bytes) =
      liftExcept Error.Key
        (cm.keyFromUntaggedBytes ((bytes.drop ATTESTATION_KEY_START).take KEY_SIZE)) fun key =>
        liftExcept Error.Signature
          (cm.sigFromBytes ((bytes.drop ISV_ENCLAVE_SIGNATURE_START).take SIGNATURE_SIZE))
          fun s =>
            liftExcept Error.Signature
              (cm.ecdsaVerify key (bytes.take (QUOTE_HEADER_SIZE + ENCLAVE_REPORT_SIZE)) s)
              fun _ => Res.ok () := by
  have h564 : (564 : Nat) ≤ bytes.length := h
  have hmsg : sliceRange bytes 0 (QUOTE_HEADER_SIZE + ENCLAVE_REPORT_SIZE) =
      some (bytes.take (QUOTE_HEADER_SIZE + ENCLAVE_REPORT_SIZE)) :=
    sliceRange_prefix _ (show (432 : Nat) ≤ bytes.length by omega)
  have hatt : sliceRange bytes ATTESTATION_KEY_START (ATTESTATION_KEY_START + KEY_SIZE) =
      some ((bytes.drop ATTESTATION_KEY_START).take KEY_SIZE) :=
    sliceRange_field _ _ (show (564 : Nat) ≤ bytes.length by omega)
  have hsig : sliceRange bytes ISV_ENCLAVE_SIGNATURE_START
      (ISV_ENCLAVE_SIGNATURE_START + SIGNATURE_SIZE) =
      some ((bytes.drop ISV_ENCLAVE_SIGNATURE_START).take SIGNATURE_SIZE) :=
    sliceRange_field _ _ (show (500 : Nat) ≤ bytes.length by omega)
  simp only [Quote.verify_enclave_report_body, Quote.get_header_and_enclave_report_body,
    Quote.get_attestation_key, Quote.verify_signature, from_bytes_bytes]
  rw [hmsg, hatt, hsig]
  simp only [liftOption_some]
  rw [resBind_liftExcept_ok]

/-- C5: for a buffer long enough for the accessed fields, the enclave
report body verification returns a Key error exactly when the attestation
key bytes fail to decode as an untagged curve point; once the key decodes,
it succeeds exactly when the ISV signature bytes decode and ECDSA accepts
the header plus report body message, and it returns a Signature error
exactly otherwise. -/
theorem verify_enclave_report_body_error_cases {PKey Sig Pem Cert : Type}
    (cm : CryptoModel PKey Sig Pem Cert) (bytes : List Nat)
    (h : ATTESTATION_KEY_START + KEY_SIZE ≤ bytes.length) :
    ((∃ s, Quote.verify_enclave_report_body cm (Quote.from_bytes bytes) =
        Res.err (Error.Key s)) ↔
      (∃ s, cm.keyFromUntaggedBytes ((bytes.drop ATTESTATION_KEY_START).take KEY_SIZE) =
        Except.error s)) ∧
    (∀ k, cm.keyFromUntaggedBytes ((bytes.drop ATTESTATION_KEY_START).take KEY_SIZE) =
        Except.ok k →
      ((Quote.verify_enclave_report_body cm (Quote.from_bytes bytes) = Res.ok () ↔
        (∃ s, cm.sigFromBytes ((bytes.drop ISV_ENCLAVE_SIGNATURE_START).take SIGNATURE_SIZE) =
            Except.ok s ∧
          cm.ecdsaVerify k (bytes.take (QUOTE_HEADER_SIZE + ENCLAVE_REPORT_SIZE)) s =
            Except.ok ())) ∧
       ((∃ e, Quote.verify_enclave_report_body cm (Quote.from_bytes bytes) =
           Res.err (Error.Signature e)) ↔
        ¬ (∃ s, cm.sigFromBytes ((bytes.drop ISV_ENCLAVE_SIGNATURE_START).take SIGNATURE_SIZE) =
            Except.ok s ∧
          cm.ecdsaVerify k (bytes.take (QUOTE_HEADER_SIZE + ENCLAVE_REPORT_SIZE)) s =
            Except.ok ())))) := by
  rw [verify_enclave_report_body_reduces cm bytes h]
  cases hk : cm.keyFromUntaggedBytes ((bytes.drop ATTESTATION_KEY_START).take KEY_SIZE) with
  | error e =>
    simp only [liftExcept_error]
    constructor
    · simp
    · intro k hkk
      simp at hkk
  | ok k0 =>
    simp only [liftExcept_ok]
    constructor
    · cases hsig : cm.sigFromBytes ((bytes.drop ISV_ENCLAVE_SIGNATURE_START).take SIGNATURE_SIZE) with
      | error e =>
        simp only [liftExcept_error]
        simp
      | ok s0 =>
        simp only [liftExcept_ok]
        cases hv : cm.ecdsaVerify k0 (bytes.take (QUOTE_HEADER_SIZE + ENCLAVE_REPORT_SIZE)) s0 with
        | error e =>
          simp only [liftExcept_error]
          simp
        | ok u =>
          simp only [liftExcept_ok]
          simp
    · intro k hkk
      injection hkk with hkk2
      subst hkk2
      cases hsig : cm.sigFromBytes ((bytes.drop ISV_ENCLAVE_SIGNATURE_START).take SIGNATURE_SIZE) with
      | error e =>
        simp only [liftExcept_error]
        constructor
        · simp
        · simp
      | ok s0 =>
        simp only [liftExcept_ok]
        cases hv : cm.ecdsaVerify k0 (bytes.take (QUOTE_HEADER_SIZE + ENCLAVE_REPORT_SIZE)) s0 with
        | error e =>
          simp only [liftExcept_error]
          constructor
          · simp [hv]
          · simp [hv]
        | ok u =>
          cases u
          simp only [liftExcept_ok]
          constructor
          · simp [hv]
          · simp [hv]

/-- C5 witness: hypotheses and both parts of the characterization realized
on the all-zero 1014-byte buffer with the all-succeeding crypto model. -/
theorem verify_enclave_report_body_error_cases_witness :
    ATTESTATION_KEY_START + KEY_SIZE ≤ zeroQuote1014.length ∧
    (((∃ s, Quote.verify_enclave_report_body cmZero (Quote.from_bytes zeroQuote1014) =
        Res.err (Error.Key s)) ↔
      (∃ s, cmZero.keyFromUntaggedBytes
          ((zeroQuote1014.drop ATTESTATION_KEY_START).take KEY_SIZE) = Except.error s)) ∧
    (∀ k, cmZero.keyFromUntaggedBytes
        ((zeroQuote1014.drop ATTESTATION_KEY_START).take KEY_SIZE) = Except.ok k →
      ((Quote.verify_enclave_report_body cmZero (Quote.from_bytes zeroQuote1014) = Res.ok () ↔
        (∃ s, cmZero.sigFromBytes
            ((zeroQuote1014.drop ISV_ENCLAVE_SIGNATURE_START).take SIGNATURE_SIZE) =
            Except.ok s ∧
          cmZero.ecdsaVerify k (zeroQuote1014.take (QUOTE_HEADER_SIZE + ENCLAVE_REPORT_SIZE)) s =
            Except.ok ())) ∧
       ((∃ e, Quote.verify_enclave_report_body cmZero (Quote.from_bytes zeroQuote1014) =
           Res.err (Error.Signature e)) ↔
        ¬ (∃ s, cmZero.sigFromBytes
            ((zeroQuote1014.drop ISV_ENCLAVE_SIGNATURE_START).take SIGNATURE_SIZE) =
            Except.ok s ∧
          cmZero.ecdsaVerify k (zeroQuote1014.take (QUOTE_HEADER_SIZE + ENCLAVE_REPORT_SIZE)) s =
            Except.ok ()))))) :=
  ⟨by decide, verify_enclave_report_body_error_cases cmZero zeroQuote1014 (by decide)⟩

/-- C6 amended: with a PEM parser that rejects the empty input (as the real
one does), truncating the buffer strictly below the hardcoded certificate
offset makes verify_quoting_enclave_report panic on an out-of-bounds slice,
while truncating to exactly the certificate offset yields the PemParsing
error. -/
theorem truncation_before_certificate_offset {PKey Sig Pem Cert : Type}
    (cm : CryptoModel PKey Sig Pem Cert) (bytes : List Nat) (e : String)
    (hp : cm.parsePem [] = Except.error e) :
    (bytes.length < PCK_PEM_OFFSET →
      Quote.verify_quoting_enclave_report cm (Quote.from_bytes bytes) = Res.panic) ∧
    (bytes.length = PCK_PEM_OFFSET →
      Quote.verify_quoting_enclave_report cm (Quote.from_bytes bytes) =
        Res.err (Error.PemParsing e)) := by
  constructor
  · intro hlt
    have hlt1052 : bytes.length < 1052 := hlt
    by_cases h948 : bytes.length < 948
    · have hm : sliceRange bytes QUOTING_ENCLAVE_REPORT_START
          (QUOTING_ENCLAVE_REPORT_START + ENCLAVE_REPORT_SIZE) = none :=
        sliceRange_none h948
      simp only [Quote.verify_quoting_enclave_report, Quote.get_quoting_enclave_report,
        from_bytes_bytes]
      rw [hm]
      rfl
    · push_neg at h948
      have hm : sliceRange bytes QUOTING_ENCLAVE_REPORT_START
          (QUOTING_ENCLAVE_REPORT_START + ENCLAVE_REPORT_SIZE) =
          some ((bytes.drop QUOTING_ENCLAVE_REPORT_START).take ENCLAVE_REPORT_SIZE) :=
        sliceRange_field _ _ (show (948 : Nat) ≤ bytes.length by omega)
      have hpp : sliceFrom bytes PCK_PEM_OFFSET = none := sliceFrom_none hlt
      simp only [Quote.verify_quoting_enclave_report, Quote.get_quoting_enclave_report,
        Quote.get_pck_pem, from_bytes_bytes]
      rw [hm]
      simp only [liftOption_some]
      rw [hpp]
      simp only [liftOption_none, resBind_panic]
  · intro heq
    have h1052 : bytes.length = 1052 := heq
    have hm : sliceRange bytes QUOTING_ENCLAVE_REPORT_START
        (QUOTING_ENCLAVE_REPORT_START + ENCLAVE_REPORT_SIZE) =
        some ((bytes.drop QUOTING_ENCLAVE_REPORT_START).take ENCLAVE_REPORT_SIZE) :=
      sliceRange_field _ _ (show (948 : Nat) ≤ bytes.length by omega)
    have hpp : sliceFrom bytes PCK_PEM_OFFSET = some (bytes.drop PCK_PEM_OFFSET) :=
      sliceFrom_some (show (1052 : Nat) ≤ bytes.length by omega)
    have hdrop : bytes.drop PCK_PEM_OFFSET = [] := by
      have hle : bytes.length ≤ (1052 : Nat) := by omega
      exact List.drop_eq_nil_of_le hle
    simp only [Quote.verify_quoting_enclave_report, Quote.get_quoting_enclave_report,
      Quote.get_pck_pem, from_bytes_bytes]
    rw [hm]
    simp only [liftOption_some]
    rw [hpp]
    simp only [liftOption_some]
    rw [hdrop, hp]
    simp only [liftExcept_error, resBind_err]

/-- C6 amended witness: on the 1052-byte all-zero buffer with the rejecting
PEM parser, the exact-offset truncation case produces the PemParsing error. -/
theorem truncation_before_certificate_offset_witness :
    cmPemFail.parsePem [] = Except.error "pem" ∧
    ((zeroQuote1052.length < PCK_PEM_OFFSET →
       Quote.verify_quoting_enclave_report cmPemFail (Quote.from_bytes zeroQuote1052) =
         Res.panic) ∧
     (zeroQuote1052.length = PCK_PEM_OFFSET →
       Quote.verify_quoting_enclave_report cmPemFail (Quote.from_bytes zeroQuote1052) =
         Res.err (Error.PemParsing "pem"))) :=
  ⟨rfl, truncation_before_certificate_offset cmPemFail zeroQuote1052 "pem" rfl⟩

/-- C7 amended: a PEM syntax failure yields the PemParsing variant while a
failure to decode the certificate SubjectPublicKeyInfo yields the Signature
variant (through the From conversion for the spki error), not the Key
variant; the two variants are distinct. -/
theorem pem_and_key_decode_error_variants
    {A1 A2 A3 A4 B1 B2 B3 B4 : Type}
    (cm1 : CryptoModel A1 A2 A3 A4) (cm2 : CryptoModel B1 B2 B3 B4)
    (b1 b2 : List Nat) (e1 : String) (pem : B3) (cert : B4) (e2 : String)
    (h1 : PCK_PEM_OFFSET ≤ b1.length)
    (hp1 : cm1.parsePem (b1.drop PCK_PEM_OFFSET) = Except.error e1)
    (h2 : PCK_PEM_OFFSET ≤ b2.length)
    (hp2 : cm2.parsePem (b2.drop PCK_PEM_OFFSET) = Except.ok pem)
    (hx2 : cm2.parseX509 pem = Except.ok cert)
    (hk2 : cm2.spkiToKey cert = Except.error e2) :
    Quote.verify_quoting_enclave_report cm1 (Quote.from_bytes b1) =
      Res.err (Error.PemParsing e1) ∧
    Quote.verify_quoting_enclave_report cm2 (Quote.from_bytes b2) =
      Res.err (Error.Signature e2) ∧
    Error.PemParsing e1 ≠ Error.Signature e2 := by
  have h1052a : (1052 : Nat) ≤ b1.length := h1
  have h1052b : (1052 : Nat) ≤ b2.length := h2
  refine ⟨?_, ?_, ?_⟩
  · have hm : sliceRange b1 QUOTING_ENCLAVE_REPORT_START
        (QUOTING_ENCLAVE_REPORT_START + ENCLAVE_REPORT_SIZE) =
        some ((b1.drop QUOTING_ENCLAVE_REPORT_START).take ENCLAVE_REPORT_SIZE) :=
      sliceRange_field _ _ (show (948 : Nat) ≤ b1.length by omega)
    have hpp : sliceFrom b1 PCK_PEM_OFFSET = some (b1.drop PCK_PEM_OFFSET) :=
      sliceFrom_some h1
    simp only [Quote.verify_quoting_enclave_report, Quote.get_quoting_enclave_report,
      Quote.get_pck_pem, from_bytes_bytes]
    rw [hm]
    simp only [liftOption_some]
    rw [hpp]
    simp only [liftOption_some]
    rw [hp1]
    simp only [liftExcept_error, resBind_err]
  · have hm : sliceRange b2 QUOTING_ENCLAVE_REPORT_START
        (QUOTING_ENCLAVE_REPORT_START + ENCLAVE_REPORT_SIZE) =
        some ((b2.drop QUOTING_ENCLAVE_REPORT_START).take ENCLAVE_REPORT_SIZE) :=
      sliceRange_field _ _ (show (948 : Nat) ≤ b2.length by omega)
    have hpp : sliceFrom b2 PCK_PEM_OFFSET = some (b2.drop PCK_PEM_OFFSET) :=
      sliceFrom_some h2
    simp only [Quote.verify_quoting_enclave_report, Quote.get_quoting_enclave_report,
      Quote.get_pck_pem, from_bytes_bytes]
    rw [hm]
    simp only [liftOption_some]
    rw [hpp]
    simp only [liftOption_some]
    rw [hp2]
    simp only [liftExcept_ok, resBind_ok]
    rw [hx2]
    simp only [liftExcept_ok]
    rw [hk2]
    simp only [liftExcept_error]
  · simp

/-- C7 amended witness: with the two concrete models on the 1052-byte
all-zero buffer, the PEM failure surfaces as PemParsing and the SPKI key
decode failure surfaces as Signature, two distinct variants. -/
theorem pem_and_key_decode_error_variants_witness :
    (PCK_PEM_OFFSET ≤ zeroQuote1052.length ∧
     cmPemFail.parsePem (zeroQuote1052.drop PCK_PEM_OFFSET) = Except.error "pem" ∧
     cmSpkiFail.parsePem (zeroQuote1052.drop PCK_PEM_OFFSET) = Except.ok () ∧
     cmSpkiFail.parseX509 () = Except.ok () ∧
     cmSpkiFail.spkiToKey () = Except.error "spki") ∧
    (Quote.verify_quoting_enclave_report cmPemFail (Quote.from_bytes zeroQuote1052) =
       Res.err (Error.PemParsing "pem") ∧
     Quote.verify_quoting_enclave_report cmSpkiFail (Quote.from_bytes zeroQuote1052) =
       Res.err (Error.Signature "spki") ∧
     Error.PemParsing "pem" ≠ Error.Signature "spki") :=
  ⟨⟨by decide, rfl, rfl, rfl, rfl⟩,
    pem_and_key_decode_error_variants cmPemFail cmSpkiFail zeroQuote1052 zeroQuote1052
      "pem" () () "spki" (by decide) rfl (by decide) rfl rfl rfl⟩

end SgxDcap
